import Mathlib

/-!
Verification of the Alpha Machine slackbot command pipeline.

This file is a shallow embedding, in Lean 4, of the command-dispatch and
context-assembly pipeline of the repository (the Slack command handler in
src/services/slackbot/command_handler.py, the interactive-action handler in
src/services/slackbot/event_handler.py, and the Linear issue-tracker client
in src/shared/services/linear_service.py), together with theorems settling
the specification claims about that pipeline.

Modelling conventions:
- Python exceptions are modelled by the `Except PyErr` monad; a function that
  the source wraps in try/except is total here, with the except branch made
  explicit as a `match` on an `Except` value.
- Outbound network calls (Linear GraphQL, Supabase, the chat-completion API)
  are modelled by oracle functions carried in environment records; the list
  of GraphQL requests actually issued is returned as an explicit ledger.
- The boolean `Config.LINEAR_TEST_MODE` flag is passed as an explicit
  `testMode : Bool` parameter (the repository reads it from configuration;
  its tests patch it on the `Config` object).
- Machine integers are `Int`/`Nat`; timestamps are seconds since an arbitrary
  epoch, so the source comparison `now - ts > timedelta(minutes=10)` becomes
  `now - ts > 60 * 10` on `Nat` (Python clocks are monotone within a run, and
  a negative timedelta compares smaller, matching truncated subtraction).
-/

namespace AlphaMachine

/-! ## Python value and error primitives -/

/-- Python exception values observed by the modelled code paths. -/
inductive PyErr where
  | valueError (msg : String)
  | attributeError (msg : String)
  | typeError (msg : String)
  | jsonDecodeError (msg : String)
  | generic (msg : String)
deriving Repr, DecidableEq

/-- Model of Python `str(e)` on an exception value. -/
def PyErr.str : PyErr → String
  | .valueError m => m
  | .attributeError m => m
  | .typeError m => m
  | .jsonDecodeError m => m
  | .generic m => m

/-- Python truthiness of an optional string (`None` and the empty string are falsy). -/
def truthy : Option String → Bool
  | none => false
  | some s => !s.isEmpty

/-- Python truthiness of a plain string. -/
def truthyS (s : String) : Bool := !s.isEmpty

/-- Python `a or b` on optional strings: `b` when `a` is falsy. -/
def pyOr (a b : Option String) : Option String := if truthy a then a else b

/-- Python f-string rendering of an optional string (`None` prints as "None"). -/
def optStr : Option String → String
  | none => "None"
  | some s => s

/-- Model of Python `int(s)` on a string: an integer on success, `none` when
`int` would raise `ValueError`. (`String.toInt?` accepts the decimal integer
literals the structured-output schema produces.) -/
def pyInt (s : String) : Option Int := s.toInt?

/-- Model of Python `int(float(s))` on a string: parse a decimal number and
truncate toward zero, `none` when `float` would raise. The structured-output
schema restricts the field to "0.5", "1", "2", "4" or "8", all of which this
model parses exactly as Python does. -/
def pyIntFloat (s : String) : Option Int :=
  match s.splitOn "." with
  | [a] => a.toInt?
  | [a, b] =>
      if b.length > 0 && b.toNat?.isSome then
        if a.isEmpty then some 0 else a.toInt?
      else none
  | _ => none

/-- Python `s[:n]` on strings, kernel-reducible: recursion stops at the end
of the string rather than counting down all of `n`. -/
def pyTake (s : String) (n : Nat) : String := ⟨s.data.take n⟩

/-- Python `s.lower()` (kernel-reducible form over the character list). -/
def pyLower (s : String) : String := ⟨s.data.map Char.toLower⟩

/-- Python `s.strip()` (kernel-reducible form over the character list). -/
def pyStrip (s : String) : String :=
  ⟨((s.data.dropWhile Char.isWhitespace).reverse.dropWhile Char.isWhitespace).reverse⟩

/-- Python `s.startswith(pre)` (kernel-reducible form). -/
def pyStartsWith (s pre : String) : Bool := pre.data.isPrefixOf s.data

/-- Worker for `pyReplace`, with the remaining scan length as structural
fuel (one character is consumed per step, so the initial length suffices). -/
def replaceAux (a b : List Char) : Nat → List Char → List Char
  | 0, l => l
  | _, [] => []
  | fuel+1, c :: rest =>
      if a.isPrefixOf (c :: rest) then
        b ++ replaceAux a b fuel (List.drop (a.length - 1) rest)
      else c :: replaceAux a b fuel rest

/-- Python `s.replace(a, b)` for a non-empty pattern `a` (the only kind the
source uses), kernel-reducible. -/
def pyReplace (s a b : String) : String := ⟨replaceAux a.data b.data s.data.length s.data⟩

/-- Worker for `pyContainsSub`. -/
def containsAux (pat : List Char) : List Char → Bool
  | [] => pat.isPrefixOf []
  | c :: rest => pat.isPrefixOf (c :: rest) || containsAux pat rest

/-- Python `sub in s` on strings, kernel-reducible. -/
def pyContainsSub (s sub : String) : Bool := containsAux sub.data s.data

/-- First whitespace-delimited word of a string: `s.split()[0]` for text
with at least one word, else the empty string. -/
def firstWord (s : String) : String :=
  ⟨(s.data.dropWhile Char.isWhitespace).takeWhile (fun c => !c.isWhitespace)⟩

/-! ## Linear issue-tracker client (src/shared/services/linear_service.py)

Each outbound `_make_request` call is recorded in a ledger of
`GraphQLRequest` values; the oracle `LinearEnv` supplies the parsed outcome
of each request kind. A getter whose source wraps `_make_request` in
try/except returning `None` on any failure is modelled by a total oracle
returning `Option` (a network failure is observationally a `none`). -/

/-- One outbound GraphQL request to the Linear API, by query or mutation kind. -/
inductive GraphQLRequest where
  | queryWorkspace
  | queryTeams
  | queryUsers
  | queryProjectMilestones
  | queryProjects
  | mutationCreateIssue
  | mutationCreateProject
  | mutationCreateMilestone
deriving Repr, DecidableEq

/-- Constructor configuration of `LinearService` (api key omitted: it only
feeds the HTTP header). -/
structure LinearConfig where
  team_name : String
  default_assignee : String
deriving Repr, DecidableEq

/-- The created issue data returned by the `issueCreate` mutation on success. -/
structure CreatedIssue where
  id : String
  title : String
deriving Repr, DecidableEq

/-- Oracle for the Linear API: the parsed outcome of each request the client
can issue. A `none` covers both a not-found lookup and a caught network
failure, which the source getters make observationally identical. -/
structure LinearEnv where
  teamId : String → Option String
  userId : String → Option String
  milestoneId : String → Option String
  projectIdByName : String → Option String
  createProjectResult : String → Option String
  createMilestoneResult : String → Option String
  createIssueResult : String → Option CreatedIssue

/-- Safety-gate message raised by `LinearService.create_issue` when the
test-mode flag is off (linear_service.py lines 365-369). -/
def create_issue_safety_msg : String :=
  "🚨 CRITICAL SAFETY ERROR: Attempting to write to production. Set LINEAR_TEST_MODE=true in your .env file to enable writing."

/-- Safety-gate message raised by `LinearService.create_milestone`. -/
def create_milestone_safety_msg : String :=
  "🚨 CRITICAL SAFETY ERROR: Attempting to create milestone in production. Set LINEAR_TEST_MODE=true in your .env file to enable writing."

/-- Safety-gate message raised by `LinearService._create_project`. -/
def create_project_safety_msg : String :=
  "🚨 CRITICAL SAFETY ERROR: Attempting to create project in production. Set LINEAR_TEST_MODE=true in your .env file to enable writing."

/-- `LinearService.get_team_id`: one teams query, name looked up in the
response; any failure is caught and returned as `None`. -/
def get_team_id (env : LinearEnv) (team_name : String) :
    Option String × List GraphQLRequest :=
  (env.teamId team_name, [.queryTeams])

/-- `LinearService.get_user_id`: one users query, email looked up. -/
def get_user_id (env : LinearEnv) (user_email : String) :
    Option String × List GraphQLRequest :=
  (env.userId user_email, [.queryUsers])

/-- `LinearService.get_milestone_id`: one project-milestones query. -/
def get_milestone_id (env : LinearEnv) (milestone_name : String) :
    Option String × List GraphQLRequest :=
  (env.milestoneId milestone_name, [.queryProjectMilestones])

/-- `LinearService.create_milestone`: safety gate, then the create mutation
(whose own network failure is caught, yielding `None`). The gate raises
before any request is issued. -/
def create_milestone (testMode : Bool) (env : LinearEnv) (milestone_name : String) :
    Except PyErr (Option String) × List GraphQLRequest :=
  if !testMode then
    (.error (.valueError create_milestone_safety_msg), [])
  else
    (.ok (env.createMilestoneResult milestone_name), [.mutationCreateMilestone])

/-- `LinearService.get_or_create_milestone`: fetch by name, else create.
There is no try/except here, so the gate error from `create_milestone`
propagates. -/
def get_or_create_milestone (testMode : Bool) (env : LinearEnv)
    (milestone_name : String) :
    Except PyErr (Option String) × List GraphQLRequest :=
  let (found, r1) := get_milestone_id env milestone_name
  match found with
  | some mid => (.ok (some mid), r1)
  | none =>
      let (res, r2) := create_milestone testMode env milestone_name
      (res, r1 ++ r2)

/-- `LinearService._create_project`: safety gate, team lookup, then the
create mutation. -/
def _create_project (testMode : Bool) (cfg : LinearConfig) (env : LinearEnv)
    (project_name : String) :
    Except PyErr (Option String) × List GraphQLRequest :=
  if !testMode then
    (.error (.valueError create_project_safety_msg), [])
  else
    let (team_id, r1) := get_team_id env cfg.team_name
    match team_id with
    | none => (.ok none, r1)
    | some _ =>
        (.ok (env.createProjectResult project_name), r1 ++ [.mutationCreateProject])

/-- `LinearService.get_or_create_project`: one projects query to look the
name up, else `_create_project`; the surrounding try/except converts any
raise (the gate error included) into `None`. -/
def get_or_create_project (testMode : Bool) (cfg : LinearConfig) (env : LinearEnv)
    (project_name : String) :
    Option String × List GraphQLRequest :=
  let r0 : List GraphQLRequest := [.queryProjects]
  match env.projectIdByName project_name with
  | some pid => (some pid, r0)
  | none =>
      match _create_project testMode cfg env project_name with
      | (.ok res, r1) => (res, r0 ++ r1)
      | (.error _, r1) => (none, r0 ++ r1)

/-- Input dictionary consumed by `LinearService.create_issue` (the keys the
method reads; absent keys are `none`). -/
structure IssueData where
  issue_title : Option String := none
  issue_description : Option String := none
  priority : Option String := none
  time_estimate : Option String := none
  assign_team_member : Option String := none
  team : Option String := none
  project : Option String := none
  milestone : Option String := none
  project_id : Option String := none
  milestone_id : Option String := none
  deadline : Option String := none
deriving Repr, DecidableEq

/-- `LinearService.create_issue` (linear_service.py lines 363-476). The
test-mode safety gate is the first statement: with the flag off it raises
before anything else runs, in particular before any GraphQL request. In
test mode the title is prefixed with the test marker, the team (and
optionally assignee, project, milestone) are resolved through the API, the
priority and estimate strings are converted with `int`/`int(float(.))`
(raising on malformed values), and the create mutation is issued, any
failure of the mutation itself being caught and returned as `None`. -/
def create_issue (testMode : Bool) (cfg : LinearConfig) (env : LinearEnv)
    (d : IssueData) :
    Except PyErr (Option CreatedIssue) × List GraphQLRequest :=
  if !testMode then
    (.error (.valueError create_issue_safety_msg), [])
  else
    let title := "[TEST] " ++ optStr d.issue_title
    let team_name_to_find := optStr (pyOr d.team (some cfg.team_name))
    let (team_id, r1) := get_team_id env team_name_to_find
    let (_, r2) :=
      if truthy d.assign_team_member then
        get_user_id env (optStr d.assign_team_member)
      else (none, [])
    match team_id with
    | none => (.ok none, r1 ++ r2)
    | some _ =>
        let (project_id, r3) :=
          if truthy d.project then
            get_or_create_project testMode cfg env (optStr d.project)
          else (none, [])
        let msRes : Except PyErr (Option String) × List GraphQLRequest :=
          if truthy d.milestone && project_id.isSome then
            get_or_create_milestone testMode env (optStr d.milestone)
          else (.ok none, [])
        match msRes with
        | (.error e, r4) => (.error e, r1 ++ r2 ++ r3 ++ r4)
        | (.ok _, r4) =>
            let priRes : Except PyErr Int :=
              if truthy d.priority then
                match pyInt (optStr d.priority) with
                | some n => .ok n
                | none => .error (.valueError "invalid literal for int()")
              else .ok 2
            match priRes with
            | .error e => (.error e, r1 ++ r2 ++ r3 ++ r4)
            | .ok _ =>
                let estRes : Except PyErr (Option Int) :=
                  if truthy d.time_estimate then
                    match pyIntFloat (optStr d.time_estimate) with
                    | some n => .ok (some n)
                    | none => .error (.valueError "could not convert string to float")
                  else .ok none
                match estRes with
                | .error e => (.error e, r1 ++ r2 ++ r3 ++ r4)
                | .ok _ =>
                    (.ok (env.createIssueResult title),
                     r1 ++ r2 ++ r3 ++ r4 ++ [.mutationCreateIssue])

/-! ## Workspace snapshot and context assembly
(command_handler.format_linear_context_comprehensive and
SlackCommandHandler._get_comprehensive_context) -/

/-- Parsed Linear project (shared/core/models.LinearProject, the fields the
formatter reads). -/
structure LinearProject where
  id : Option String := none
  name : String := "Unknown Project"
  description : Option String := none
  state : Option String := none
  progress : Option Nat := none
deriving Repr, DecidableEq

/-- Parsed Linear milestone (the fields the formatter reads). -/
structure LinearMilestone where
  id : Option String := none
  name : String := "Unknown Milestone"
  description : Option String := none
  target_date : Option String := none
  project_id : Option String := none
  project_name : Option String := none
deriving Repr, DecidableEq

/-- Parsed Linear issue (the fields the formatter reads). -/
structure LinearIssue where
  id : Option String := none
  title : String := "No title"
  description : Option String := none
  state_name : Option String := none
  state_type : Option String := none
  priority : Option Nat := none
  estimate : Option Nat := none
  assignee_name : Option String := none
  project_id : Option String := none
  milestone_id : Option String := none
deriving Repr, DecidableEq

/-- The Workspace Snapshot (shared/core/models.LinearContext). -/
structure LinearContext where
  projects : List LinearProject := []
  milestones : List LinearMilestone := []
  issues : List LinearIssue := []
deriving Repr, DecidableEq

/-- The empty snapshot, `LinearContext()` in the source. -/
def emptyLinearContext : LinearContext := {}

/-- One-decimal percentage rendering used by the executive summary (the
source formats a Python float with `:.1f`; this renders the same digits for
exact tenths and truncates otherwise). -/
def fmtPercent1 (num den : Nat) : String :=
  if den = 0 then "0.0"
  else
    let scaled := num * 1000 / den
    toString (scaled / 10) ++ "." ++ toString (scaled % 10)

/-- An issue counts as active unless its state type is completed
(`state_type != 'completed'`; an absent state type is active). -/
def issueActive (i : LinearIssue) : Bool := i.state_type ≠ some "completed"

/-- Lines for one project block of the projects section (name, description,
milestones, active issues), following the source order; the per-issue emoji
decoration is rendered in condensed form (one line per issue instead of the
source's box drawing), detail no claim observes. -/
def projectLines (ctx : LinearContext) (p : LinearProject) : List String :=
  let header := "📋 " ++ p.name ++ " (" ++ toString (p.progress.getD 0) ++ "% complete)"
  let desc := match p.description with
    | some d => "   📝 " ++ d
    | none => "   📝 No description"
  let msLines := (ctx.milestones.filter (fun m => m.project_id = p.id)).map
    (fun m => "     • " ++ m.name ++ " (Target: " ++ m.target_date.getD "TBD" ++ ")")
  let activeIssues := ctx.issues.filter (fun i => i.project_id = p.id && issueActive i)
  let issLines := activeIssues.map
    (fun i => "   ┌─ " ++ i.title ++ " | 👤 " ++ i.assignee_name.getD "Unassigned"
      ++ " | Status: " ++ i.state_name.getD "None")
  [header, desc] ++ msLines ++ issLines ++ [""]

/-- Lines of the team-workload section: one rollup line per assignee of an
active issue (count, summed estimate hours, high-priority count), assignees
in first-appearance order (the source additionally sorts by descending
count, an ordering §4.2 of the spec explicitly leaves uncontracted). -/
def workloadLines (ctx : LinearContext) : List String :=
  let active := ctx.issues.filter issueActive
  let names := (active.map (fun i => i.assignee_name.getD "Unassigned")).dedup
  if active.isEmpty then ["• No active issues assigned"]
  else names.map (fun n =>
    let theirs := active.filter (fun i => i.assignee_name.getD "Unassigned" = n)
    let total := (theirs.map (fun i => i.estimate.getD 0)).sum
    let high := (theirs.filter (fun i => i.priority = some 1)).length
    "👤 " ++ n ++ ": " ++ toString theirs.length ++ " issues | "
      ++ toString total ++ "h total | " ++ toString high ++ " high priority")

/-- Lines of the upcoming-milestones section (milestones with a target
date, each with project name and active-issue count). -/
def milestoneLines (ctx : LinearContext) : List String :=
  (ctx.milestones.filter (fun m => m.target_date.isSome)).map (fun m =>
    let cnt := (ctx.issues.filter
      (fun i => i.milestone_id = m.id && issueActive i)).length
    "📍 " ++ m.name ++ " (Target: " ++ m.target_date.getD "" ++ ") | 🚀 Project: "
      ++ m.project_name.getD "None" ++ " | 📋 Active Issues: " ++ toString cnt)

/-- `format_linear_context_comprehensive` (command_handler.py lines 36-176).
An empty snapshot (no projects and no issues) renders to the fixed
placeholder line; otherwise the sections are rendered in source order
(executive summary, active projects, team workload, upcoming milestones). -/
def format_linear_context_comprehensive (ctx : LinearContext) : String :=
  if ctx.projects.isEmpty && ctx.issues.isEmpty then
    "📝 LINEAR: No workspace data available"
  else
    let total := ctx.issues.length
    let active := (ctx.issues.filter issueActive).length
    let completed := total - active
    let sections :=
      ["🎯 LINEAR WORKSPACE CONTEXT",
       "".pushn '=' 50,
       "📊 SUMMARY: " ++ toString ctx.projects.length ++ " projects | "
         ++ toString active ++ " active issues | " ++ toString completed ++ " completed",
       "📈 Completion Rate: " ++ fmtPercent1 completed total ++ "%",
       "",
       "🚀 ACTIVE PROJECTS:"]
      ++ (if ctx.projects.isEmpty then ["• No projects found"]
          else (ctx.projects.filter (fun p => p.state = some "started")).flatMap
            (projectLines ctx))
      ++ ["👥 TEAM WORKLOAD:"] ++ workloadLines ctx ++ [""]
      ++ (if ctx.milestones.isEmpty then []
          else ["🎯 UPCOMING MILESTONES:"] ++ milestoneLines ctx ++ [""])
      ++ ["".pushn '=' 50]
    String.intercalate "\n" sections

/-- `LinearService.get_workspace_context`: issue the workspace query; any
raise from the request (network error, non-200 status, malformed body) is
caught and the empty snapshot returned. The field-by-field parse of a
successful response (`_parse_workspace_data`) only reshapes external data,
so the parsed snapshot is supplied directly by the oracle. -/
def get_workspace_context (fetch : Except PyErr LinearContext) :
    LinearContext × List GraphQLRequest :=
  match fetch with
  | .ok ctx => (ctx, [.queryWorkspace])
  | .error _ => (emptyLinearContext, [.queryWorkspace])

/-- A transcript row as read from the Supabase store (the columns the
handlers access). -/
structure Transcript where
  id : String := ""
  filename : Option String := none
  created_at : Option String := none
  filtered_transcript : Option String := none
deriving Repr, DecidableEq

/-- Display form of a stored ISO timestamp (`strftime` on the parsed date;
an ISO string "Y-m-dTH:M:S..." renders as "Y-m-d H:M"; absent dates render
as the unknown marker, matching the source defaults and fallbacks). -/
def fmtDateLong (created : Option String) : String :=
  match created with
  | none => "Unknown Date"
  | some d => if d.isEmpty then "Unknown Date" else pyTake (pyReplace d "T" " ") 16

/-- The two context lines rendered for one recent transcript (name/date
line and a 300-character preview with newlines flattened). -/
def transcriptEntryLines (t : Transcript) : List String :=
  let filename := t.filename.getD "Unknown Meeting"
  let content := t.filtered_transcript.getD ""
  let preview :=
    if truthyS content then pyStrip (pyReplace (pyTake content 300) "\n" " ")
    else "No content available"
  ["• " ++ filename ++ " (" ++ fmtDateLong t.created_at ++ ")",
   "  📝 " ++ preview ++ "..."]

/-- The recent-transcripts block of `_get_comprehensive_context`: a caught
database error degrades to the unavailability line; a successful but empty
fetch appends nothing; otherwise the header, rule and per-transcript
entries. -/
def transcriptParts : Except PyErr (List Transcript) → List String
  | .error _ => ["📋 MEETINGS: Database unavailable", ""]
  | .ok ts =>
      if ts.isEmpty then []
      else ["📋 RECENT MEETINGS (Last 7 Days):", "".pushn '-' 35]
        ++ ts.flatMap transcriptEntryLines ++ [""]

/-- The Linear block of `_get_comprehensive_context`: the snapshot is
fetched and rendered inside a try whose except branch appends the short
unavailability placeholder. `get_workspace_context` catches internally and
the renderer is total, so the except branch is dead; it is kept to mirror
the source. -/
def linearSectionParts (fetch : Except PyErr LinearContext) : List String :=
  match (Except.ok (format_linear_context_comprehensive
      (get_workspace_context fetch).1) : Except PyErr String) with
  | .ok s => [s]
  | .error e => ["🎯 LINEAR: unavailable (" ++ pyTake (PyErr.str e) 50 ++ ")", ""]

/-- `SlackCommandHandler._get_comprehensive_context` (command_handler.py
lines 1465-1517): recent transcripts block, Linear block, last-updated
line, joined with newlines. Each data source is consumed behind its own
try/except, so the assembler itself never raises: its `Except` result is
always `.ok`. -/
def _get_comprehensive_context (tr : Except PyErr (List Transcript))
    (fetch : Except PyErr LinearContext) (nowStr : String) :
    Except PyErr String :=
  let parts := transcriptParts tr ++ linearSectionParts fetch
    ++ ["🕐 Last updated: " ++ nowStr]
  if parts.isEmpty then .ok "📝 Basic AI assistant ready to help"
  else .ok (String.intercalate "\n" parts)

/-! ## Per-user ephemeral state (command_handler.py lines 25-31, 205-230,
1091-1108): the two module-level maps, their timeouts, and their accessors. -/

abbrev UserId := String

/-- `SELECTION_TIMEOUT_MINUTES` (command_handler.py line 27). -/
def SELECTION_TIMEOUT_MINUTES : Nat := 10

/-- `PENDING_TICKET_TIMEOUT_MINUTES` (command_handler.py line 31). -/
def PENDING_TICKET_TIMEOUT_MINUTES : Nat := 10

/-- One entry of `USER_TRANSCRIPT_SELECTIONS`. -/
structure SelectionEntry where
  transcript_ids : List String
  timestamp : Nat
deriving Repr, DecidableEq

/-- One entry of `USER_PENDING_TICKETS` (the Pending Ticket Confirmation). -/
structure PendingTicket where
  context : String := ""
  original_request : String := ""
  analysis : String := ""
  timestamp : Nat := 0
  user_id : UserId := ""
deriving Repr, DecidableEq

/-- The two module-level per-user maps. -/
structure BotState where
  selections : UserId → Option SelectionEntry
  pendings : UserId → Option PendingTicket

/-- Both maps empty (fresh process). -/
def emptyBotState : BotState := ⟨fun _ => none, fun _ => none⟩

/-- Point update of the selections map. -/
def BotState.setSelection (s : BotState) (u : UserId) (e : Option SelectionEntry) :
    BotState :=
  { s with selections := fun v => if v = u then e else s.selections v }

/-- Point update of the pendings map. -/
def BotState.setPending (s : BotState) (u : UserId) (e : Option PendingTicket) :
    BotState :=
  { s with pendings := fun v => if v = u then e else s.pendings v }

/-- `SlackCommandHandler._store_user_selection`: store the ids with a fresh
timestamp, overwriting any prior entry. -/
def _store_user_selection (u : UserId) (ids : List String) (now : Nat)
    (s : BotState) : BotState :=
  s.setSelection u (some ⟨ids, now⟩)

/-- `SlackCommandHandler._get_user_selection`: absent entries yield `none`;
an entry older than the timeout is deleted and yields `none`; otherwise the
stored ids are returned and the entry kept. -/
def _get_user_selection (u : UserId) (now : Nat) (s : BotState) :
    Option (List String) × BotState :=
  match s.selections u with
  | none => (none, s)
  | some e =>
      if now - e.timestamp > 60 * SELECTION_TIMEOUT_MINUTES then
        (none, s.setSelection u none)
      else (some e.transcript_ids, s)

/-- `SlackCommandHandler._clear_user_selection`. -/
def _clear_user_selection (u : UserId) (s : BotState) : BotState :=
  s.setSelection u none

/-- `SlackCommandHandler._get_pending_tickets`: same lazily-checked timeout
discipline as the selections map. -/
def _get_pending_tickets (u : UserId) (now : Nat) (s : BotState) :
    Option PendingTicket × BotState :=
  match s.pendings u with
  | none => (none, s)
  | some e =>
      if now - e.timestamp > 60 * PENDING_TICKET_TIMEOUT_MINUTES then
        (none, s.setPending u none)
      else (some e, s)

/-- `SlackCommandHandler._clear_pending_tickets`. -/
def _clear_pending_tickets (u : UserId) (s : BotState) : BotState :=
  s.setPending u none

/-! ## Responses, effects, oracles -/

/-- The compact state copy serialized into the yes/no buttons' `value`
field (command_handler.py lines 1037-1044); `json.dumps`/`json.loads` are
modelled as the identity on this record. -/
structure CompactPayload where
  user_id : UserId
  original_request : String
  analysis : String
deriving Repr, DecidableEq

/-- A response payload delivered to the callback URL. `response_type` is
kept as the raw string the source puts in the dict. `buttonValue` carries
the compact payload when the response has yes/no action buttons. -/
structure SlackResponse where
  response_type : String
  text : String
  hasBlocks : Bool := false
  buttonValue : Option CompactPayload := none
deriving Repr, DecidableEq

/-- An ephemeral text response. -/
def ephemeralResp (t : String) : SlackResponse :=
  { response_type := "ephemeral", text := t }

/-- An in-channel text response. -/
def inChannelResp (t : String) : SlackResponse :=
  { response_type := "in_channel", text := t }

/-- Observable side effects of one handler run: the number of
`linear_service.create_issue` invocations, the `update_issue` invocations
with their arguments, whether a chat-completion call was reached, the
(request, analysis) argument pair prepared for the structured
ticket-conversion call, and the GraphQL ledger. -/
structure Effects where
  createCalls : Nat := 0
  updateCalls : List (String × List (String × String)) := []
  aiCalled : Bool := false
  convArgs : Option (String × String) := none
  requests : List GraphQLRequest := []
deriving Repr, DecidableEq

/-- Result of one handler run: the response that is delivered, the state
left in the two per-user maps, and the observable effects. -/
structure HandlerResult where
  response : SlackResponse
  state : BotState
  eff : Effects

/-- One ticket object of the structured conversion's JSON output
(the keys `handle_create_tickets_confirmation` reads off each item). -/
structure TicketItem where
  issue_title : Option String := none
  title : Option String := none
  issue_description : Option String := none
  description : Option String := none
  priority : Option String := none
  time_estimate : Option String := none
  estimate : Option String := none
  assign_team_member : Option String := none
  assignee : Option String := none
  team : Option String := none
  project : Option String := none
  milestone : Option String := none
  project_id : Option String := none
  milestone_id : Option String := none
  deadline : Option String := none
deriving Repr, DecidableEq

/-- The parsed JSON form of the update analysis
(`_handle_update_ticket_command` reads ticket_id, updates, summary). -/
structure UpdateParsed where
  ticket_id : Option String := none
  updates : List (String × String) := []
  summary : Option String := none
deriving Repr, DecidableEq

/-- The updated issue dict expected back from an issue update. -/
structure UpdatedIssue where
  id : String := ""
  title : String := ""
  url : Option String := none
deriving Repr, DecidableEq

/-- A prompt entry of prompts.yml. -/
structure PromptConfig where
  system_prompt : String
  user_prompt : String
deriving Repr, DecidableEq

/-- Modelled from the spec: prompts.yml (the prompt-template data read by
`load_prompts`, shared/core/utils) is not part of the source snapshot, so
template text is opaque here and `template.format(...)` is modelled as
appending the argument values to the template. This preserves exactly what
the claims observe: which argument values were supplied to which call. -/
def pyFormat (template : String) (args : List String) : String :=
  template ++ String.intercalate "\n" args

/-- Method names defined on `OpenAIService` in
src/shared/services/ai_service.py. -/
def openAIServiceMethods : List String :=
  ["__init__", "process_transcript", "_call_openai_structured", "generate_text",
   "get_structured_response", "chat_with_responses_api", "continue_conversation"]

/-- Method names defined on `LinearService` in
src/shared/services/linear_service.py. -/
def linearServiceMethods : List String :=
  ["__init__", "_make_request", "get_workspace_context", "_parse_workspace_data",
   "get_team_id", "get_user_id", "get_milestone_id", "create_milestone",
   "get_or_create_milestone", "get_or_create_project", "_create_project",
   "create_issue", "_delete_issue"]

/-- Behavior of `await self.ai_service.generate_text_async(...)` against the
source `OpenAIService`: the name is not among the class's methods, so the
attribute lookup raises `AttributeError` before any API traffic. (CPython
quotes the class and attribute names in the message; the quotes are
dropped here.) -/
def generate_text_async_src : String → String → Except PyErr String :=
  fun _ _ =>
    .error (.attributeError "OpenAIService object has no attribute generate_text_async")

/-- Behavior of `await self.ai_service._call_openai_structured_async(...)`
against the source `OpenAIService`: `AttributeError`, as above. -/
def call_openai_structured_async_src : String → String → Except PyErr String :=
  fun _ _ =>
    .error (.attributeError "OpenAIService object has no attribute _call_openai_structured_async")

/-- Modelled from the spec: `_call_openai_structured_async`, the async
structured-JSON operation the dispatcher invokes on the chat-completion
client, is absent from src/shared/services/ai_service.py (only callers and
the repository's tests refer to it). Per §2/§6 of the spec the client
offers a generate-structured-JSON operation; its outcome for one exchange
is a fixed response text. -/
def specStructuredCall (resp : String) : String → String → Except PyErr String :=
  fun _ _ => .ok resp

/-- Modelled from the spec: `generate_text_async`, the async free-text
operation, is likewise absent from src/shared/services/ai_service.py; its
outcome for one exchange is a fixed response text. -/
def specGenText (resp : String) : String → String → Except PyErr String :=
  fun _ _ => .ok resp

/-- Modelled from the spec: `LinearService.update_issue` is absent from
src/shared/services/linear_service.py (only callers, and tests asserting
that it enforces the test-mode safety gate and returns the updated issue).
Per §2/§6 of the spec every destructive issue-tracker operation is gated by
the test-mode flag; the update outcome itself comes from the environment. -/
def spec_update_issue (testMode : Bool) (result : String → Option UpdatedIssue) :
    String → List (String × String) → Except PyErr (Option UpdatedIssue) :=
  fun tid _ =>
    if !testMode then
      .error (.valueError "🚨 CRITICAL SAFETY ERROR: Attempting to update issue in production. Set LINEAR_TEST_MODE=true in your .env file to enable writing.")
    else .ok (result tid)

/-- The full environment a handler runs against: configuration, the Linear
and Supabase oracles, the chat-completion call behaviors, the `json.loads`
decodings of the structured responses (JSON parsing proper is outside the
embedding; each decode oracle stands for `json.loads` applied to the
response text), the optional `update_issue` client method (`none` models
the attribute being absent, so that calling it raises `AttributeError`),
and the loaded prompt table. -/
structure Env where
  testMode : Bool
  cfg : LinearConfig
  linear : LinearEnv
  linearFetch : Except PyErr LinearContext
  recentTranscripts : Nat → Except PyErr (List Transcript)
  transcriptById : String → Option Transcript
  genText : String → String → Except PyErr String
  structuredCall : String → String → Except PyErr String
  loadsTickets : String → Except PyErr (List TicketItem)
  loadsUpdate : String → Except PyErr UpdateParsed
  updateIssueMethod : Option (String → List (String × String) → Except PyErr (Option UpdatedIssue))
  prompts : String → Option PromptConfig
  nowStr : String

/-- The environment runs the chat-completion calls exactly as the source
`OpenAIService` does: both async methods are missing, so both calls raise. -/
def Env.srcAI (env : Env) : Prop :=
  env.genText = generate_text_async_src ∧
  env.structuredCall = call_openai_structured_async_src

/-! ## Ticket creation from a confirmed analysis
(SlackCommandHandler.handle_create_tickets_confirmation,
command_handler.py lines 1110-1211) -/

/-- Key normalization from one structured-output item to the
`LinearService` schema (command_handler.py lines 1161-1177). -/
def map_issue_keys (t : TicketItem) : IssueData :=
  { issue_title := pyOr t.issue_title t.title,
    issue_description := pyOr t.issue_description t.description,
    priority := t.priority,
    time_estimate := pyOr t.time_estimate t.estimate,
    assign_team_member := pyOr t.assign_team_member t.assignee,
    team := t.team,
    project := t.project,
    milestone := t.milestone,
    project_id := t.project_id,
    milestone_id := t.milestone_id,
    deadline := t.deadline }

/-- In test mode the handler prefixes the test marker onto the title if it
is not already there (command_handler.py lines 1179-1182). -/
def test_mode_title (testMode : Bool) (d : IssueData) : IssueData :=
  if testMode && truthy d.issue_title then
    let ti := optStr d.issue_title
    if !pyStartsWith ti "[TEST]" then { d with issue_title := some ("[TEST] " ++ ti) }
    else d
  else d

/-- The creation loop over the extracted ticket objects: each iteration
normalizes one item and invokes `create_issue` once; a raise from
`create_issue` aborts the loop (to be caught by the handler). Returns the
successfully created issues, the number of `create_issue` invocations and
the GraphQL ledger, or the propagated error with the same counters. -/
def create_tickets_loop (testMode : Bool) (cfg : LinearConfig) (env : LinearEnv) :
    List TicketItem →
    (List CreatedIssue × Nat × List GraphQLRequest) ⊕ (PyErr × Nat × List GraphQLRequest)
  | [] => .inl ([], 0, [])
  | t :: ts =>
      let d := test_mode_title testMode (map_issue_keys t)
      match create_issue testMode cfg env d with
      | (.error e, reqs) => .inr (e, 1, reqs)
      | (.ok res, reqs) =>
          match create_tickets_loop testMode cfg env ts with
          | .inl (cs, n, rs) =>
              .inl ((match res with | some c => [c] | none => []) ++ cs, n + 1, reqs ++ rs)
          | .inr (e, n, rs) => .inr (e, n + 1, reqs ++ rs)

/-- The fixed nothing-pending reply (command_handler.py line 1117). -/
def noPendingText : String :=
  "❌ **No pending ticket creation found.** Please use `/create` again to generate new tickets."

/-- The fixed cancellation reply (command_handler.py line 1126). -/
def cancelText : String :=
  "✅ **Ticket creation cancelled.** No tickets were created in Linear."

/-- `SlackCommandHandler.handle_create_tickets_confirmation`: look up the
pending record (with lazy expiry), clear it whatever the answer, reply the
cancellation message on no; on yes, run the structured conversion on the
pending record's request and analysis (analysis cut to 4000 characters),
`json.loads` the result, create each ticket through `create_issue`, and
reply with the created list — every raise inside the yes branch, the
conversion call and the safety gate included, is caught by the handler's
own except clauses and converted to an ephemeral error reply. -/
def handle_create_tickets_confirmation (env : Env) (u : UserId)
    (confirmed : Bool) (now : Nat) (s : BotState) : HandlerResult :=
  let (tdOpt, s1) := _get_pending_tickets u now s
  match tdOpt with
  | none => ⟨ephemeralResp noPendingText, s1, {}⟩
  | some td =>
    let s2 := _clear_pending_tickets u s1
    if !confirmed then ⟨ephemeralResp cancelText, s2, {}⟩
    else
      match env.prompts "slack_bot_create_tickets_structured" with
      | none =>
          ⟨ephemeralResp "❌ Structured tickets prompt configuration not found.", s2, {}⟩
      | some pc =>
        let analysisCut := pyTake td.analysis 4000
        let user_prompt := pyFormat pc.user_prompt ["", td.original_request, analysisCut]
        let eff0 : Effects :=
          { aiCalled := true, convArgs := some (td.original_request, analysisCut) }
        match env.structuredCall pc.system_prompt user_prompt with
        | .error e =>
            ⟨ephemeralResp ("❌ Error creating tickets: " ++ e.str), s2, eff0⟩
        | .ok respStr =>
          match env.loadsTickets respStr with
          | .error (.jsonDecodeError m) =>
              ⟨ephemeralResp ("❌ **Error:** Failed to parse ticket data. " ++ m), s2, eff0⟩
          | .error e =>
              ⟨ephemeralResp ("❌ Error creating tickets: " ++ e.str), s2, eff0⟩
          | .ok tickets =>
            match create_tickets_loop env.testMode env.cfg env.linear tickets with
            | .inr (e, n, reqs) =>
                ⟨ephemeralResp ("❌ Error creating tickets: " ++ e.str), s2,
                 { eff0 with createCalls := n, requests := reqs }⟩
            | .inl (created, n, reqs) =>
                if created.isEmpty then
                  ⟨ephemeralResp ("❌ **Failed to create Linear tickets.** The analysis was:\n\n"
                      ++ td.analysis), s2,
                   { eff0 with createCalls := n, requests := reqs }⟩
                else
                  let ticket_list := String.intercalate "\n"
                    (created.map (fun t => "• **" ++ t.title ++ "** (ID: " ++ t.id ++ ")"))
                  let note := if env.testMode then " (TEST MODE)" else ""
                  ⟨inChannelResp ("✅ **" ++ toString created.length
                      ++ " Ticket(s) Created in Linear" ++ note ++ ":**\n\n" ++ ticket_list),
                   s2, { eff0 with createCalls := n, requests := reqs }⟩

/-! ## Interactive-action dispatch
(SlackEventHandler._handle_block_actions, event_handler.py lines 530-713) -/

/-- The `set_transcript_selection` button branch (event_handler.py lines
553-578): the stored selection is read through `_get_user_selection` to
build the confirmation message and is NOT cleared; only an expired entry is
removed, by the read itself. Returns what was read and the state left
behind. -/
def handle_set_transcript_selection (u : UserId) (now : Nat) (s : BotState) :
    Option (List String) × BotState :=
  _get_user_selection u now s

/-- The `create_tickets_yes` button branch (event_handler.py lines
580-653): when the button's value decodes to a payload whose analysis and
original request are both non-empty, the handler unconditionally clears the
user's pending entry and re-seeds it from the payload copy with a fresh
timestamp — whether or not a live in-memory record exists — and only then
runs the confirmation handler. A missing, undecodable or field-deficient
value leaves the state untouched, so the in-memory record is used. -/
def handle_create_tickets_yes (env : Env) (value : Option CompactPayload)
    (u : UserId) (now : Nat) (s : BotState) : HandlerResult :=
  let s1 :=
    match value with
    | some vp =>
        if truthyS vp.analysis && truthyS vp.original_request then
          (_clear_pending_tickets u s).setPending u
            (some { context := "", original_request := vp.original_request,
                    analysis := vp.analysis, timestamp := now, user_id := u })
        else s
    | none => s
  handle_create_tickets_confirmation env u true now s1

/-- The `create_tickets_no` button branch (event_handler.py lines 655-712):
no seeding from the payload; the confirmation handler runs with
`confirmed = False`. -/
def handle_create_tickets_no (env : Env) (u : UserId) (now : Nat)
    (s : BotState) : HandlerResult :=
  handle_create_tickets_confirmation env u false now s

/-! ## Slash-command handlers and the dispatcher
(SlackCommandHandler.handle_command and the per-command handlers) -/

/-- The inbound Command Invocation fields the dispatcher reads. -/
structure CommandPayload where
  command : String := ""
  text : String := ""
  user_id : String := ""
  channel_id : String := ""
  response_url : String := ""
deriving Repr, DecidableEq

/-- The assembled context as the handlers see it (`await
self._get_comprehensive_context()`; the assembler always returns, so the
error branch here is dead). -/
def contextOf (env : Env) : String :=
  match _get_comprehensive_context (env.recentTranscripts 3) env.linearFetch env.nowStr with
  | .ok s => s
  | .error e => e.str

/-- `_show_transcript_selector_for_chat` (and the identically shaped
`_handle_chat_with_selector_inline`): fetch the ten most recent transcripts
inside a try; a caught failure or an empty list yields the fixed ephemeral
texts, otherwise an ephemeral block message carrying the multi-select and
its buttons (block contents are cosmetic and not modelled field by field). -/
def _show_transcript_selector_for_chat (env : Env) : SlackResponse :=
  match env.recentTranscripts 10 with
  | .error e => ephemeralResp ("❌ Error showing transcript selector: " ++ e.str)
  | .ok ts =>
      if ts.isEmpty then ephemeralResp "📭 No transcripts available for selection."
      else { response_type := "ephemeral", text := "", hasBlocks := true }

/-- The custom context built from explicitly selected transcripts
(command_handler.py lines 848-897): full transcript contents, the Linear
block, the last-updated line (headers condensed to one per transcript). -/
def selectedTranscriptsContext (env : Env) (selected : List Transcript) : String :=
  String.intercalate "\n"
    (["📋 SELECTED MEETING TRANSCRIPTS (COMPLETE CONTENT):"]
     ++ selected.flatMap (fun t =>
          ["📄 TRANSCRIPT: " ++ t.filename.getD "Unknown Meeting",
           if truthyS (t.filtered_transcript.getD "") then
             pyStrip (t.filtered_transcript.getD "")
           else "No content available"])
     ++ linearSectionParts env.linearFetch
     ++ ["🕐 Last updated: " ++ env.nowStr])

/-- `_handle_chat_with_selected_transcripts` (command_handler.py lines
826-933): fetch each selected id, bail out ephemerally when none resolve,
otherwise build the custom context and ask the text-generation call; the
whole body is inside a try whose except yields the fixed ephemeral error. -/
def _handle_chat_with_selected_transcripts (env : Env) (ids : List String)
    (question : String) : SlackResponse × Effects :=
  let selected := ids.filterMap env.transcriptById
  if selected.isEmpty then
    (ephemeralResp "❌ Could not retrieve selected transcripts.", {})
  else
    match env.prompts "slack_bot_chat" with
    | none => (ephemeralResp "❌ Chat prompt configuration not found.", {})
    | some pc =>
        let ctx := selectedTranscriptsContext env selected
        match env.genText pc.system_prompt (pyFormat pc.user_prompt [ctx, question]) with
        | .ok t =>
            let names := String.intercalate ", "
              (selected.map (fun tr => tr.filename.getD "Unknown"))
            (ephemeralResp ("🎯 **AI Response** (using ONLY " ++ toString selected.length
                ++ " selected transcript(s): " ++ names ++ "):\n\n" ++ t),
             { aiCalled := true })
        | .error e =>
            (ephemeralResp ("❌ Error processing chat with selected transcripts: " ++ e.str),
             { aiCalled := true })

/-- The usage tips returned by `/chat` with no argument. -/
def chatTipsText : String :=
  "Please provide a question or message to chat about.\n\n💡 **Tips**:\n• `/chat select` - Choose specific transcripts\n• `/chat with [question]` - Choose transcripts for your question\n• `/chat [question]` - Use all recent context"

/-- `SlackCommandHandler._handle_chat_command` (lines 318-391): keyword
arguments open the interactive picker; a "with " prefix opens the inline
picker carrying the question; empty text returns the tips; otherwise a
stored valid selection is consumed (read, then cleared) and the selected
path taken, and absent that, the default path assembles the comprehensive
context and asks the text generation call inside a try. -/
def _handle_chat_command (env : Env) (p : CommandPayload) (now : Nat)
    (s : BotState) : HandlerResult :=
  let text := pyStrip p.text
  if ["select", "choose", "pick", "transcripts"].contains (pyLower text) then
    ⟨_show_transcript_selector_for_chat env, s, {}⟩
  else if pyStartsWith (pyLower text) "with " then
    let question := pyStrip (text.drop 5)
    if !question.isEmpty then ⟨_show_transcript_selector_for_chat env, s, {}⟩
    else ⟨_show_transcript_selector_for_chat env, s, {}⟩
  else if text.isEmpty then
    ⟨ephemeralResp chatTipsText, s, {}⟩
  else
    let (selOpt, s1) := _get_user_selection p.user_id now s
    match selOpt with
    | some ids =>
        let s2 := _clear_user_selection p.user_id s1
        let pr := _handle_chat_with_selected_transcripts env ids text
        ⟨pr.1, s2, pr.2⟩
    | none =>
        match env.prompts "slack_bot_chat" with
        | none => ⟨ephemeralResp "❌ Chat prompt configuration not found.", s1, {}⟩
        | some pc =>
            let ctx := contextOf env
            let hist := "Recent conversation in channel " ++ p.channel_id
              ++ " with user " ++ p.user_id
            let user_prompt := pyFormat pc.user_prompt
              [ctx ++ "\n\nRecent Slack History:\n" ++ hist, text]
            match env.genText pc.system_prompt user_prompt with
            | .ok t =>
                ⟨ephemeralResp ("🤖 **AI Response:**\n" ++ t), s1, { aiCalled := true }⟩
            | .error e =>
                ⟨ephemeralResp ("❌ Error generating response: " ++ e.str), s1,
                 { aiCalled := true }⟩

/-- `_handle_meeting_summary` (lines 1362-1422): most recent transcript,
degraded replies for fetch failure, no rows or empty content, else the
text-generation call on the 3000-character head of the transcript. -/
def _handle_meeting_summary (env : Env) : SlackResponse × Effects :=
  match env.recentTranscripts 1 with
  | .error e => (ephemeralResp ("❌ Error generating meeting summary: " ++ e.str), {})
  | .ok ts =>
      match ts.head? with
      | none => (ephemeralResp "📭 No recent meetings found.", {})
      | some m =>
          let filename := m.filename.getD "Unknown Meeting"
          let content := m.filtered_transcript.getD ""
          if !truthyS content then
            (ephemeralResp "📭 No transcript content found for recent meeting.", {})
          else
            match env.prompts "slack_bot_summarize_meeting" with
            | none =>
                (ephemeralResp "❌ Meeting summary prompt configuration not found.", {})
            | some pc =>
                let date := fmtDateLong m.created_at
                let user_prompt := pyFormat pc.user_prompt
                  ["Meeting: " ++ filename ++ " | Date: " ++ date, pyTake content 3000]
                match env.genText pc.system_prompt user_prompt with
                | .ok t =>
                    let msg := if truthyS t then t else "Unable to generate meeting summary."
                    (ephemeralResp ("📅 **Meeting Summary - " ++ filename ++ "**\n*"
                        ++ date ++ "*\n\n" ++ msg), { aiCalled := true })
                | .error e =>
                    (ephemeralResp ("❌ Error generating meeting summary: " ++ e.str),
                     { aiCalled := true })

/-- `_handle_client_summary` (lines 1424-1463): strip the literal word
"client" out of the text to get the client name (case-sensitively, as the
source does; the display title-casing of the name is elided), then the
text-generation call over the comprehensive context. -/
def _handle_client_summary (env : Env) (text : String) : SlackResponse × Effects :=
  let client_name := pyStrip (pyReplace text "client" "")
  if client_name.isEmpty then
    (ephemeralResp "Please specify a client name: `/summarize client [client_name]`", {})
  else
    match env.prompts "slack_bot_client_status" with
    | none => (ephemeralResp "❌ Client status prompt configuration not found.", {})
    | some pc =>
        let ctx := contextOf env
        match env.genText pc.system_prompt (pyFormat pc.user_prompt [ctx, client_name]) with
        | .ok t =>
            let msg := if truthyS t then t
              else "No information found for client: " ++ client_name
            (ephemeralResp ("📊 **Client Status: " ++ client_name ++ "**\n\n" ++ msg),
             { aiCalled := true })
        | .error e =>
            (ephemeralResp ("❌ Error generating client summary: " ++ e.str),
             { aiCalled := true })

/-- `_handle_summarize_command` (lines 935-952): empty text and any
unrecognized text default to the most-recent-meeting summary; a first word
of last/recent/latest does the same; text containing "client" (checked on
the lowercased text, modelled by splitting on the word) selects the
client-status branch. -/
def _handle_summarize_command (env : Env) (p : CommandPayload) :
    SlackResponse × Effects :=
  let text := pyStrip p.text
  if text.isEmpty then _handle_meeting_summary env
  else
    let first := pyLower (firstWord text)
    if ["last", "recent", "latest"].contains first then _handle_meeting_summary env
    else if pyContainsSub (pyLower text) "client" then
      _handle_client_summary env text
    else _handle_meeting_summary env

/-- `_handle_create_ticket_command` (lines 954-1089): assemble the context,
run the structured analysis call on the 8000-character head of the context,
store the Pending Ticket Confirmation under the user id, and return the
ephemeral analysis message with yes/no buttons whose value carries the
compact payload (analysis cut to 1400 characters); a raise inside the try
(the AI call included) resolves to the fixed ephemeral error and stores
nothing. -/
def _handle_create_ticket_command (env : Env) (p : CommandPayload) (now : Nat)
    (s : BotState) : HandlerResult :=
  let text := pyStrip p.text
  if text.isEmpty then
    ⟨ephemeralResp "Please describe what you want to create in Linear.", s, {}⟩
  else
    let ctx := contextOf env
    match env.prompts "slack_bot_create_tickets" with
    | none => ⟨ephemeralResp "❌ Create tickets prompt configuration not found.", s, {}⟩
    | some pc =>
        let truncated_context := if ctx.length > 8000 then pyTake ctx 8000 ++ "..." else ctx
        let user_prompt := pyFormat pc.user_prompt [truncated_context, text]
        match env.structuredCall pc.system_prompt user_prompt with
        | .error e =>
            ⟨ephemeralResp ("❌ Error processing ticket creation: " ++ e.str), s,
             { aiCalled := true }⟩
        | .ok analysis =>
            let s1 := s.setPending p.user_id
              (some { context := ctx, original_request := text, analysis := analysis,
                      timestamp := now, user_id := p.user_id })
            let indicator := if env.testMode then " [TEST MODE]" else ""
            let truncated_analysis :=
              if analysis.length > 2800 then pyTake analysis 2800 ++ "..." else analysis
            let cleaned := pyReplace (pyReplace truncated_analysis "*" "•") "\x60" "\x27"
            let compact : CompactPayload :=
              { user_id := p.user_id, original_request := text,
                analysis := if analysis.length > 1400 then pyTake analysis 1400 ++ "..."
                  else analysis }
            ⟨{ response_type := "ephemeral",
               text := "📋 Linear Ticket Analysis" ++ indicator ++ ":\n\n" ++ cleaned
                 ++ "\n\n⚡ Would you like me to create these tickets in Linear?",
               hasBlocks := true, buttonValue := some compact }, s1,
             { aiCalled := true }⟩

/-- Usage message of `/update` with no argument (the source examples are
elided). -/
def updateUsageText : String := "Please describe what you want to update in Linear."

/-- `_handle_update_ticket_command` (lines 1213-1289): structured analysis
call; with test mode off the analysis is returned and nothing written; with
test mode on the response is `json.loads`-parsed into ticket_id/updates,
and `linear_service.update_issue` is invoked — an attribute that does not
exist on the source `LinearService`, modelled by `env.updateIssueMethod`
being `none`, in which case the lookup raises `AttributeError` into the
handler's generic except. -/
def _handle_update_ticket_command (env : Env) (p : CommandPayload) :
    SlackResponse × Effects :=
  let text := pyStrip p.text
  if text.isEmpty then (ephemeralResp updateUsageText, {})
  else
    let ctx := contextOf env
    match env.prompts "slack_bot_update_tickets" with
    | none => (ephemeralResp "❌ Update tickets prompt configuration not found.", {})
    | some pc =>
        match env.structuredCall pc.system_prompt (pyFormat pc.user_prompt [ctx, text]) with
        | .error e =>
            (ephemeralResp ("❌ Error processing ticket update: " ++ e.str),
             { aiCalled := true })
        | .ok resp =>
            if !env.testMode then
              (ephemeralResp ("📝 **Linear Ticket Update Analysis (Test Mode Disabled):**\n\n"
                  ++ resp), { aiCalled := true })
            else
              match env.loadsUpdate resp with
              | .error (.jsonDecodeError _) =>
                  (ephemeralResp ("❌ **Error:** The AI returned an invalid format. Analysis:\n\n"
                      ++ resp), { aiCalled := true })
              | .error e =>
                  (ephemeralResp ("❌ Error processing ticket update: " ++ e.str),
                   { aiCalled := true })
              | .ok upd =>
                  let summary := upd.summary.getD "Ticket update"
                  if !truthy upd.ticket_id || upd.updates.isEmpty then
                    (ephemeralResp "❌ **Unable to parse update request.** Please be more specific about which ticket to update and what changes to make.",
                     { aiCalled := true })
                  else
                    let tid := optStr upd.ticket_id
                    match env.updateIssueMethod with
                    | none =>
                        (ephemeralResp "❌ Error processing ticket update: LinearService object has no attribute update_issue",
                         { aiCalled := true })
                    | some upd_fn =>
                        match upd_fn tid upd.updates with
                        | .error e =>
                            (ephemeralResp ("❌ Error processing ticket update: " ++ e.str),
                             { aiCalled := true, updateCalls := [(tid, upd.updates)] })
                        | .ok none =>
                            (ephemeralResp ("❌ **Failed to update Linear ticket.** The AI analysis was:\n\n"
                                ++ resp),
                             { aiCalled := true, updateCalls := [(tid, upd.updates)] })
                        | .ok (some u) =>
                            (inChannelResp ("✅ **Ticket Updated in Linear:**\n\n**Ticket:** "
                                ++ tid ++ "\n**Summary:** " ++ summary ++ "\n**URL:** "
                                ++ u.url.getD "N/A"),
                             { aiCalled := true, updateCalls := [(tid, upd.updates)] })

/-- `_handle_teammember_command` (lines 1291-1330). -/
def _handle_teammember_command (env : Env) (p : CommandPayload) :
    SlackResponse × Effects :=
  let text := pyStrip p.text
  if text.isEmpty then (ephemeralResp "Please specify a team member name or @username.", {})
  else
    let ctx := contextOf env
    match env.prompts "slack_bot_teammember" with
    | none => (ephemeralResp "❌ Team member prompt configuration not found.", {})
    | some pc =>
        match env.genText pc.system_prompt (pyFormat pc.user_prompt [ctx, text]) with
        | .ok t =>
            let msg := if truthyS t then t else "No information found for this team member."
            (ephemeralResp ("👤 **Team Member Info:**\n\n" ++ msg), { aiCalled := true })
        | .error e =>
            (ephemeralResp ("❌ Error getting team member info: " ++ e.str),
             { aiCalled := true })

/-- `_handle_weekly_summary_command` (lines 1332-1360): the only handler
whose success reply is in-channel; the argument text is ignored. -/
def _handle_weekly_summary_command (env : Env) : SlackResponse × Effects :=
  let ctx := contextOf env
  match env.prompts "slack_bot_weekly_summary" with
  | none => (ephemeralResp "❌ Weekly summary prompt configuration not found.", {})
  | some pc =>
      match env.genText pc.system_prompt (pyFormat pc.user_prompt [ctx]) with
      | .ok t =>
          let msg := if truthyS t then t else "Unable to generate weekly summary."
          (inChannelResp msg, { aiCalled := true })
      | .error e =>
          (ephemeralResp ("❌ Error generating weekly summary: " ++ e.str),
           { aiCalled := true })

/-- The known command names, in the order the dispatcher tests them. -/
def knownCommands : List String :=
  ["/chat", "/summarize", "/create-ticket", "/create", "/update", "/teammember",
   "/weekly-summary"]

/-- The routing chain of `handle_command` (lines 240-257): exact string
match, first match wins, fixed unknown-command ephemeral otherwise. -/
def route_command (env : Env) (p : CommandPayload) (now : Nat) (s : BotState) :
    HandlerResult :=
  if p.command = "/chat" then _handle_chat_command env p now s
  else if p.command = "/summarize" then
    let pr := _handle_summarize_command env p
    ⟨pr.1, s, pr.2⟩
  else if p.command = "/create-ticket" || p.command = "/create" then
    _handle_create_ticket_command env p now s
  else if p.command = "/update" then
    let pr := _handle_update_ticket_command env p
    ⟨pr.1, s, pr.2⟩
  else if p.command = "/teammember" then
    let pr := _handle_teammember_command env p
    ⟨pr.1, s, pr.2⟩
  else if p.command = "/weekly-summary" then
    let pr := _handle_weekly_summary_command env
    ⟨pr.1, s, pr.2⟩
  else ⟨ephemeralResp ("Unknown command: " ++ p.command), s, {}⟩

/-- The dispatcher boundary catch (lines 272-280): a raise escaping a
handler resolves to the fixed ephemeral error message carrying the
exception text; a normal result is delivered as is. -/
def handle_command_boundary (command : String) (r : Except PyErr HandlerResult)
    (s : BotState) : HandlerResult :=
  match r with
  | .ok hr => hr
  | .error e =>
      ⟨ephemeralResp ("❌ Error processing " ++ command ++ ": " ++ e.str), s, {}⟩

/-- `SlackCommandHandler.handle_command` (lines 232-280): route on exact
command string inside a try whose except converts any raise into the fixed
ephemeral error before delivery, so dispatch never raises to its caller.
Every modelled handler returns normally (each catches internally), which
the boundary makes explicit by being applied to an always-`.ok` value. The
bare-string-to-dict conversion branch of the source is dead in this typed
model (handlers return response records). -/
def handle_command (env : Env) (p : CommandPayload) (now : Nat) (s : BotState) :
    HandlerResult :=
  handle_command_boundary p.command (.ok (route_command env p now s)) s

/-! ## Service construction (SlackCommandHandler.__init__,
command_handler.py lines 188-203) -/

/-- Required parameters of `LinearService.__init__` — parameters with no
default value, `self` excluded (linear_service.py line 14). -/
def linearServiceRequiredParams : List String := ["api_key", "team_name", "default_assignee"]

/-- Keyword arguments supplied to `LinearService(...)` by
`SlackCommandHandler.__init__` (command_handler.py lines 197-200). -/
def slackHandlerLinearArgs : List String := ["api_key", "team_name"]

/-- Python call binding: a call raises `TypeError` when a required
parameter receives no argument. -/
def pyBindCall (required supplied : List String) : Except PyErr Unit :=
  match required.filter (fun r => !supplied.contains r) with
  | [] => .ok ()
  | missing =>
      .error (.typeError ("__init__() missing " ++ toString missing.length
        ++ " required positional argument: " ++ String.intercalate ", " missing))

/-- `SlackCommandHandler.__init__` in construction order: `SlackService()`
and `SupabaseService()` take no required parameters, every parameter of
`OpenAIService.__init__` has a default, then `LinearService(api_key=...,
team_name=...)` is called — two arguments against three required
parameters. (`NotionService` is constructed after `LinearService`, so it
cannot mask the failure; its module is not part of the source snapshot.) -/
def slackCommandHandlerConstruction : Except PyErr Unit := do
  let _ ← pyBindCall [] []                                  -- SlackService()
  let _ ← pyBindCall [] []                                  -- OpenAIService(...): all defaulted
  let _ ← pyBindCall linearServiceRequiredParams slackHandlerLinearArgs
  let _ ← pyBindCall [] []                                  -- NotionService()
  let _ ← pyBindCall [] []                                  -- SupabaseService()
  pure ()

/-! ## Concrete fixtures for witnesses and counterexamples -/

/-- A Linear oracle where every lookup succeeds. -/
def sampleLinearEnv : LinearEnv :=
  { teamId := fun _ => some "team-1",
    userId := fun _ => some "user-7",
    milestoneId := fun _ => some "ms-1",
    projectIdByName := fun _ => some "proj-1",
    createProjectResult := fun _ => some "proj-new",
    createMilestoneResult := fun _ => some "ms-new",
    createIssueResult := fun t => some { id := "ISS-1", title := t } }

/-- A prompt table where every key is present. -/
def samplePrompts : String → Option PromptConfig :=
  fun k => some { system_prompt := "sys:" ++ k, user_prompt := "usr:" ++ k }

/-- A well-formed extracted ticket object. -/
def sampleTicket1 : TicketItem :=
  { issue_title := some "Fix login bug", issue_description := some "Users cannot log in",
    priority := some "2", time_estimate := some "2" }

/-- A second well-formed extracted ticket object. -/
def sampleTicket2 : TicketItem :=
  { issue_title := some "Add login tests", issue_description := some "Cover the fix",
    priority := some "1", time_estimate := some "0.5" }

/-- A stored transcript row. -/
def sampleTranscript : Transcript :=
  { id := "t1", filename := some "standup.txt",
    created_at := some "2025-01-02T03:04:05", filtered_transcript := some "We discussed the login bug." }

/-- Base environment: test mode on, all lookups succeed, the chat-completion
client behaving exactly as the source `OpenAIService` (both async methods
missing), no `update_issue` attribute, every prompt present. -/
def baseEnv : Env :=
  { testMode := true,
    cfg := { team_name := "Alpha Team", default_assignee := "dev@example.com" },
    linear := sampleLinearEnv,
    linearFetch := .ok emptyLinearContext,
    recentTranscripts := fun _ => .ok [sampleTranscript],
    transcriptById := fun i => if i = "t1" then some sampleTranscript else none,
    genText := generate_text_async_src,
    structuredCall := call_openai_structured_async_src,
    loadsTickets := fun _ => .error (.jsonDecodeError "Expecting value"),
    loadsUpdate := fun _ => .error (.jsonDecodeError "Expecting value"),
    updateIssueMethod := none,
    prompts := samplePrompts,
    nowStr := "2025-01-02 12:00" }

/-! ## Claim theorems -/

/-- C1. With the test-mode flag disabled, `create_issue` raises the safety
`ValueError` as its first action, for every issue payload and every API
oracle, and the GraphQL request ledger is empty: no query or mutation is
sent. -/
theorem create_issue_gate_raises_before_network (cfg : LinearConfig)
    (env : LinearEnv) (d : IssueData) :
    create_issue false cfg env d
      = (.error (.valueError create_issue_safety_msg), ([] : List GraphQLRequest)) :=
  rfl

/-- C9. Constructing the command dispatcher raises: `LinearService.__init__`
declares three required parameters but `SlackCommandHandler.__init__`
supplies only `api_key` and `team_name`, so the construction sequence stops
with a `TypeError` naming `default_assignee`, before any command can be
handled. -/
theorem slack_command_handler_construction_raises :
    slackCommandHandlerConstruction
        = .error (.typeError
            "__init__() missing 1 required positional argument: default_assignee")
      ∧ linearServiceRequiredParams.filter
          (fun r => !slackHandlerLinearArgs.contains r) = ["default_assignee"] := by
  constructor <;> rfl

/-- C4. Transcript-selection lifecycle: (a) a selection stored at `now` and
read back at most 10 minutes later returns exactly the stored ids; (b) a
read more than 10 minutes after storage returns `none` and removes the
entry; (c) the default chat path consumes a live selection — after the
command the entry is gone; (d) the explicit-picker read path
(`set_transcript_selection`) returns the live selection and leaves the
state untouched. -/
theorem selection_lifecycle :
    (∀ (u : UserId) (ids : List String) (now later : Nat) (s : BotState),
      later - now ≤ 600 →
      (_get_user_selection u later (_store_user_selection u ids now s)).1 = some ids) ∧
    (∀ (u : UserId) (ids : List String) (now later : Nat) (s : BotState),
      later - now > 600 →
      (_get_user_selection u later (_store_user_selection u ids now s)).1 = none ∧
      ((_get_user_selection u later (_store_user_selection u ids now s)).2).selections u
        = none) ∧
    (∀ (env : Env) (p : CommandPayload) (now : Nat) (s : BotState) (e : SelectionEntry),
      s.selections p.user_id = some e →
      now - e.timestamp ≤ 600 →
      (["select", "choose", "pick", "transcripts"].contains (pyLower (pyStrip p.text))) = false →
      pyStartsWith (pyLower (pyStrip p.text)) "with " = false →
      (pyStrip p.text).isEmpty = false →
      ((_handle_chat_command env p now s).state).selections p.user_id = none) ∧
    (∀ (u : UserId) (now : Nat) (s : BotState) (e : SelectionEntry),
      s.selections u = some e →
      now - e.timestamp ≤ 600 →
      handle_set_transcript_selection u now s = (some e.transcript_ids, s)) := by
  refine ⟨?_, ?_, ?_, ?_⟩
  · intro u ids now later s h
    simp [_get_user_selection, _store_user_selection, BotState.setSelection,
      SELECTION_TIMEOUT_MINUTES, Nat.not_lt.2 h]
  · intro u ids now later s h
    constructor <;>
      simp [_get_user_selection, _store_user_selection, BotState.setSelection,
        SELECTION_TIMEOUT_MINUTES, h]
  · intro env p now s e hsel hfresh hkw hwith hne
    simp only [_handle_chat_command, hkw, hwith, hne, Bool.false_eq_true, if_false,
      _get_user_selection, hsel, SELECTION_TIMEOUT_MINUTES]
    rw [if_neg (by omega)]
    simp [_clear_user_selection, BotState.setSelection]
  · intro u now s e hsel hfresh
    simp [handle_set_transcript_selection, _get_user_selection, hsel,
      SELECTION_TIMEOUT_MINUTES]
    omega

/-- Witness for C4 at concrete inputs: store ids for user U2 at time 0,
read at 600 seconds (kept), at 601 seconds (expired and removed); a live
selection is consumed by a plain chat command and preserved by the picker
read. -/
theorem selection_lifecycle_witness :
    (_get_user_selection "U2" 600
        (_store_user_selection "U2" ["t1", "t2"] 0 emptyBotState)).1 = some ["t1", "t2"] ∧
    (_get_user_selection "U2" 601
        (_store_user_selection "U2" ["t1", "t2"] 0 emptyBotState)).1 = none ∧
    ((_handle_chat_command baseEnv
        { command := "/chat", text := "what happened", user_id := "U2" } 0
        (_store_user_selection "U2" ["t1"] 0 emptyBotState)).state).selections "U2"
      = none ∧
    handle_set_transcript_selection "U2" 0
        (_store_user_selection "U2" ["t1"] 0 emptyBotState)
      = (some ["t1"], _store_user_selection "U2" ["t1"] 0 emptyBotState) := by
  refine ⟨selection_lifecycle.1 "U2" ["t1", "t2"] 0 600 emptyBotState (by omega),
    (selection_lifecycle.2.1 "U2" ["t1", "t2"] 0 601 emptyBotState (by omega)).1,
    selection_lifecycle.2.2.1 baseEnv _ 0 _ ⟨["t1"], 0⟩ rfl (by omega) (by decide)
      (by decide) (by decide),
    selection_lifecycle.2.2.2 "U2" 0 _ ⟨["t1"], 0⟩ rfl (by omega)⟩

/-- C7. Context degradation: if the workspace fetch raises, the assembler
still returns (`.ok`), the Linear block degrades to the fixed short
placeholder, and the transcripts block is exactly what the transcript
source produced — the unavailability line when that fetch failed too, the
rendered recent-meetings section when it returned rows. -/
theorem context_degrades_on_linear_failure
    (tr : Except PyErr (List Transcript)) (e : PyErr) (nowStr : String) :
    _get_comprehensive_context tr (.error e) nowStr
      = .ok (String.intercalate "\n"
          (transcriptParts tr
            ++ ["📝 LINEAR: No workspace data available", "🕐 Last updated: " ++ nowStr])) ∧
    (∀ e2 : PyErr, tr = .error e2 →
      "📋 MEETINGS: Database unavailable" ∈ transcriptParts tr) ∧
    (∀ ts : List Transcript, tr = .ok ts → ts ≠ [] →
      "📋 RECENT MEETINGS (Last 7 Days):" ∈ transcriptParts tr) := by
  refine ⟨?_, ?_, ?_⟩
  · have hlin : linearSectionParts (.error e)
        = ["📝 LINEAR: No workspace data available"] := rfl
    rcases tr with e2 | ts
    · simp [_get_comprehensive_context, hlin, transcriptParts]
    · by_cases h : ts.isEmpty
      · simp [_get_comprehensive_context, hlin, transcriptParts, h]
      · simp [_get_comprehensive_context, hlin, transcriptParts, h]
  · rintro e2 rfl
    simp [transcriptParts]
  · rintro ts rfl hne
    simp [transcriptParts, List.isEmpty_eq_true, hne]

/-- Witness for C7 at concrete inputs: one stored transcript and a failing
workspace fetch. -/
theorem context_degrades_on_linear_failure_witness :
    _get_comprehensive_context (.ok [sampleTranscript])
        (.error (.generic "boom")) "2025-01-02 12:00"
      = .ok (String.intercalate "\n"
          (transcriptParts (.ok [sampleTranscript])
            ++ ["📝 LINEAR: No workspace data available",
                "🕐 Last updated: 2025-01-02 12:00"])) ∧
    "📋 RECENT MEETINGS (Last 7 Days):" ∈ transcriptParts
        (Except.ok (ε := PyErr) [sampleTranscript]) :=
  ⟨(context_degrades_on_linear_failure (.ok [sampleTranscript]) (.generic "boom")
      "2025-01-02 12:00").1,
   (context_degrades_on_linear_failure (.ok [sampleTranscript]) (.generic "boom")
      "2025-01-02 12:00").2.2 [sampleTranscript] rfl (by decide)⟩

/-! ## Response-shape and faithful-AI helper lemmas -/

/-- Response shape demanded by the routing claim: the delivered
`response_type` is one of the two strings the transport accepts. -/
def RTOk (r : SlackResponse) : Prop :=
  r.response_type = "ephemeral" ∨ r.response_type = "in_channel"

/-- An ephemeral reply whose text opens with the error marker. -/
def ErrReply (r : SlackResponse) : Prop :=
  r.response_type = "ephemeral" ∧ pyStartsWith r.text "❌" = true

/-- A pair-returning handler resolves any reached chat-completion call to an
error reply. -/
def AICallOk (pr : SlackResponse × Effects) : Prop :=
  pr.2.aiCalled = true → ErrReply pr.1

/-- A `HandlerResult`-returning handler resolves any reached
chat-completion call to an error reply. -/
def AICallOkH (hr : HandlerResult) : Prop :=
  hr.eff.aiCalled = true → ErrReply hr.response

lemma rtok_selector (env : Env) : RTOk (_show_transcript_selector_for_chat env) := by
  unfold _show_transcript_selector_for_chat
  try dsimp only
  repeat' split
  all_goals first | exact Or.inl rfl | exact Or.inr rfl

lemma rtok_selected (env : Env) (ids : List String) (q : String) :
    RTOk (_handle_chat_with_selected_transcripts env ids q).1 := by
  unfold _handle_chat_with_selected_transcripts
  try dsimp only
  repeat' split
  all_goals first | exact Or.inl rfl | exact Or.inr rfl

lemma rtok_chat (env : Env) (p : CommandPayload) (now : Nat) (s : BotState) :
    RTOk (_handle_chat_command env p now s).response := by
  unfold _handle_chat_command
  try dsimp only
  repeat' split
  all_goals first
    | exact Or.inl rfl
    | exact Or.inr rfl
    | exact rtok_selector env
    | exact rtok_selected env _ _

lemma rtok_meeting (env : Env) : RTOk (_handle_meeting_summary env).1 := by
  unfold _handle_meeting_summary
  try dsimp only
  repeat' split
  all_goals first | exact Or.inl rfl | exact Or.inr rfl

lemma rtok_client (env : Env) (text : String) :
    RTOk (_handle_client_summary env text).1 := by
  unfold _handle_client_summary
  try dsimp only
  repeat' split
  all_goals first | exact Or.inl rfl | exact Or.inr rfl

lemma rtok_summarize (env : Env) (p : CommandPayload) :
    RTOk (_handle_summarize_command env p).1 := by
  unfold _handle_summarize_command
  try dsimp only
  repeat' split
  all_goals first
    | exact rtok_meeting env
    | exact rtok_client env _

lemma rtok_create (env : Env) (p : CommandPayload) (now : Nat) (s : BotState) :
    RTOk (_handle_create_ticket_command env p now s).response := by
  unfold _handle_create_ticket_command
  try dsimp only
  repeat' split
  all_goals first | exact Or.inl rfl | exact Or.inr rfl

lemma rtok_update (env : Env) (p : CommandPayload) :
    RTOk (_handle_update_ticket_command env p).1 := by
  unfold _handle_update_ticket_command
  try dsimp only
  repeat' split
  all_goals first | exact Or.inl rfl | exact Or.inr rfl

lemma rtok_teammember (env : Env) (p : CommandPayload) :
    RTOk (_handle_teammember_command env p).1 := by
  unfold _handle_teammember_command
  try dsimp only
  repeat' split
  all_goals first | exact Or.inl rfl | exact Or.inr rfl

lemma rtok_weekly (env : Env) : RTOk (_handle_weekly_summary_command env).1 := by
  unfold _handle_weekly_summary_command
  try dsimp only
  repeat' split
  all_goals first | exact Or.inl rfl | exact Or.inr rfl

lemma rtok_dispatch (env : Env) (p : CommandPayload) (now : Nat) (s : BotState) :
    RTOk (handle_command env p now s).response := by
  show RTOk (route_command env p now s).response
  unfold route_command
  try dsimp only
  repeat' split
  all_goals first
    | exact Or.inl rfl
    | exact rtok_chat env p now s
    | exact rtok_summarize env p
    | exact rtok_create env p now s
    | exact rtok_update env p
    | exact rtok_teammember env p
    | exact rtok_weekly env

lemma aiok_selected (env : Env) (hg : env.genText = generate_text_async_src)
    (ids : List String) (q : String) :
    AICallOk (_handle_chat_with_selected_transcripts env ids q) := by
  unfold _handle_chat_with_selected_transcripts
  rw [hg]
  try dsimp only [generate_text_async_src]
  repeat' split
  all_goals intro h
  all_goals first
    | exact Bool.noConfusion h
    | (refine ⟨rfl, ?_⟩; dsimp only; decide)

lemma aiok_chat (env : Env) (hg : env.genText = generate_text_async_src)
    (p : CommandPayload) (now : Nat) (s : BotState) :
    AICallOkH (_handle_chat_command env p now s) := by
  unfold _handle_chat_command
  rw [hg]
  try dsimp only [generate_text_async_src]
  repeat' split
  all_goals intro h
  all_goals first
    | exact Bool.noConfusion h
    | exact aiok_selected env hg _ _ h
    | (refine ⟨rfl, ?_⟩; dsimp only; decide)

lemma aiok_meeting (env : Env) (hg : env.genText = generate_text_async_src) :
    AICallOk (_handle_meeting_summary env) := by
  unfold _handle_meeting_summary
  rw [hg]
  try dsimp only [generate_text_async_src]
  repeat' split
  all_goals intro h
  all_goals first
    | exact Bool.noConfusion h
    | (refine ⟨rfl, ?_⟩; dsimp only; decide)

lemma aiok_client (env : Env) (hg : env.genText = generate_text_async_src)
    (text : String) :
    AICallOk (_handle_client_summary env text) := by
  unfold _handle_client_summary
  rw [hg]
  try dsimp only [generate_text_async_src]
  repeat' split
  all_goals intro h
  all_goals first
    | exact Bool.noConfusion h
    | (refine ⟨rfl, ?_⟩; dsimp only; decide)

lemma aiok_summarize (env : Env) (hg : env.genText = generate_text_async_src)
    (p : CommandPayload) :
    AICallOk (_handle_summarize_command env p) := by
  unfold _handle_summarize_command
  try dsimp only
  repeat' split
  all_goals first
    | exact aiok_meeting env hg
    | exact aiok_client env hg _

lemma aiok_create (env : Env)
    (hs : env.structuredCall = call_openai_structured_async_src)
    (p : CommandPayload) (now : Nat) (s : BotState) :
    AICallOkH (_handle_create_ticket_command env p now s) := by
  unfold _handle_create_ticket_command
  rw [hs]
  try dsimp only [call_openai_structured_async_src]
  repeat' split
  all_goals intro h
  all_goals first
    | exact Bool.noConfusion h
    | (refine ⟨rfl, ?_⟩; dsimp only; decide)

lemma aiok_update (env : Env)
    (hs : env.structuredCall = call_openai_structured_async_src)
    (p : CommandPayload) :
    AICallOk (_handle_update_ticket_command env p) := by
  unfold _handle_update_ticket_command
  rw [hs]
  try dsimp only [call_openai_structured_async_src]
  repeat' split
  all_goals intro h
  all_goals first
    | exact Bool.noConfusion h
    | (refine ⟨rfl, ?_⟩; dsimp only; decide)

lemma aiok_teammember (env : Env) (hg : env.genText = generate_text_async_src)
    (p : CommandPayload) :
    AICallOk (_handle_teammember_command env p) := by
  unfold _handle_teammember_command
  rw [hg]
  try dsimp only [generate_text_async_src]
  repeat' split
  all_goals intro h
  all_goals first
    | exact Bool.noConfusion h
    | (refine ⟨rfl, ?_⟩; dsimp only; decide)

lemma aiok_weekly (env : Env) (hg : env.genText = generate_text_async_src) :
    AICallOk (_handle_weekly_summary_command env) := by
  unfold _handle_weekly_summary_command
  rw [hg]
  try dsimp only [generate_text_async_src]
  repeat' split
  all_goals intro h
  all_goals first
    | exact Bool.noConfusion h
    | (refine ⟨rfl, ?_⟩; dsimp only; decide)

lemma aiok_dispatch (env : Env) (hg : env.genText = generate_text_async_src)
    (hs : env.structuredCall = call_openai_structured_async_src)
    (p : CommandPayload) (now : Nat) (s : BotState) :
    AICallOkH (handle_command env p now s) := by
  show AICallOkH (route_command env p now s)
  unfold route_command
  try dsimp only
  repeat' split
  all_goals first
    | exact aiok_chat env hg p now s
    | exact aiok_summarize env hg p
    | exact aiok_create env hs p now s
    | exact aiok_update env hs p
    | exact aiok_teammember env hg p
    | exact aiok_weekly env hg
    | exact fun h => Bool.noConfusion h

/-- C3. Routing: for every inbound payload the dispatcher delivers a
response whose `response_type` is ephemeral or in_channel; an unknown
command yields the fixed unknown-command ephemeral; each of the known
command names routes to exactly its handler (create and create-ticket to
the same one); and a raise escaping a handler is converted by the
dispatcher boundary into the fixed ephemeral error carrying the exception
text, so dispatch never raises to its caller. -/
theorem command_routing_complete (env : Env) (p : CommandPayload) (now : Nat)
    (s : BotState) :
    RTOk (handle_command env p now s).response ∧
    (p.command ∉ knownCommands →
      (handle_command env p now s).response
        = ephemeralResp ("Unknown command: " ++ p.command)) ∧
    (p.command = "/chat" →
      handle_command env p now s = _handle_chat_command env p now s) ∧
    (p.command = "/summarize" →
      (handle_command env p now s).response = (_handle_summarize_command env p).1) ∧
    (p.command = "/create-ticket" ∨ p.command = "/create" →
      handle_command env p now s = _handle_create_ticket_command env p now s) ∧
    (p.command = "/update" →
      (handle_command env p now s).response = (_handle_update_ticket_command env p).1) ∧
    (p.command = "/teammember" →
      (handle_command env p now s).response = (_handle_teammember_command env p).1) ∧
    (p.command = "/weekly-summary" →
      (handle_command env p now s).response = (_handle_weekly_summary_command env).1) ∧
    (∀ e : PyErr, handle_command_boundary p.command (.error e) s
      = ⟨ephemeralResp ("❌ Error processing " ++ p.command ++ ": " ++ e.str), s, {}⟩) := by
  refine ⟨rtok_dispatch env p now s, ?_, ?_, ?_, ?_, ?_, ?_, ?_, fun e => rfl⟩
  · intro hmem
    simp only [knownCommands, List.mem_cons, List.not_mem_nil, or_false, not_or] at hmem
    obtain ⟨h1, h2, h3, h4, h5, h6, h7⟩ := hmem
    simp [handle_command, handle_command_boundary, route_command, h1, h2, h3, h4, h5, h6, h7]
  · intro h
    simp [handle_command, handle_command_boundary, route_command, h]
  · intro h
    simp [handle_command, handle_command_boundary, route_command, h]
  · intro h
    rcases h with h | h <;>
      simp [handle_command, handle_command_boundary, route_command, h]
  · intro h
    simp [handle_command, handle_command_boundary, route_command, h]
  · intro h
    simp [handle_command, handle_command_boundary, route_command, h]
  · intro h
    simp [handle_command, handle_command_boundary, route_command, h]

/-- Witness for C3 at a concrete unknown command and a concrete boundary
exception. -/
theorem command_routing_complete_witness :
    (handle_command baseEnv { command := "/bogus" } 0 emptyBotState).response
      = ephemeralResp ("Unknown command: " ++ ({ command := "/bogus" } : CommandPayload).command) ∧
    RTOk (handle_command baseEnv { command := "/bogus" } 0 emptyBotState).response ∧
    handle_command_boundary "/bogus" (.error (.generic "boom")) emptyBotState
      = ⟨ephemeralResp ("❌ Error processing " ++ "/bogus" ++ ": "
          ++ PyErr.str (.generic "boom")), emptyBotState, {}⟩ :=
  ⟨(command_routing_complete baseEnv { command := "/bogus" } 0 emptyBotState).2.1
      (by decide),
   (command_routing_complete baseEnv { command := "/bogus" } 0 emptyBotState).1,
   (command_routing_complete baseEnv { command := "/bogus" } 0 emptyBotState).2.2.2.2.2.2.2.2
      (.generic "boom")⟩

/-- C10. Neither `generate_text_async` nor `_call_openai_structured_async`
is defined on `OpenAIService`; with the environment running those calls as
the source does (raising `AttributeError`), every command invocation whose
handler reaches a chat-completion call resolves to an ephemeral response
whose text opens with the error marker — never to a successful AI answer. -/
theorem missing_async_ai_methods_degrade_all_ai_paths (env : Env)
    (p : CommandPayload) (now : Nat) (s : BotState)
    (hg : env.genText = generate_text_async_src)
    (hs : env.structuredCall = call_openai_structured_async_src) :
    "generate_text_async" ∉ openAIServiceMethods ∧
    "_call_openai_structured_async" ∉ openAIServiceMethods ∧
    ((handle_command env p now s).eff.aiCalled = true →
      (handle_command env p now s).response.response_type = "ephemeral" ∧
      pyStartsWith (handle_command env p now s).response.text "❌" = true) :=
  ⟨by decide, by decide, fun h => aiok_dispatch env hg hs p now s h⟩

/-- Witness for C10: the weekly-summary command against the base
environment reaches the AI call and resolves to the error ephemeral. -/
theorem missing_async_ai_methods_witness :
    (handle_command baseEnv { command := "/weekly-summary" } 0 emptyBotState).eff.aiCalled
        = true ∧
    (handle_command baseEnv { command := "/weekly-summary" } 0
        emptyBotState).response.response_type = "ephemeral" ∧
    pyStartsWith (handle_command baseEnv { command := "/weekly-summary" } 0
        emptyBotState).response.text "❌" = true :=
  ⟨by decide,
   (missing_async_ai_methods_degrade_all_ai_paths baseEnv
      { command := "/weekly-summary" } 0 emptyBotState rfl rfl).2.2 (by decide)⟩

/-! ## Confirmation-lifecycle fixtures -/

/-- A fresh Pending Ticket Confirmation stored for user U1. -/
def pendingU1 : PendingTicket :=
  { context := "", original_request := "Fix login bug",
    analysis := "Create one Linear ticket for the login bug", timestamp := 0,
    user_id := "U1" }

/-- State holding only that pending record. -/
def pendingState : BotState := emptyBotState.setPending "U1" (some pendingU1)

/-- Stand-in response text of the (spec-modelled) structured conversion. -/
def ticketsJson : String := "[TICKETS]"

/-- Environment with test mode off and the structured conversion
spec-modelled to return two well-formed tickets. -/
def specEnvOff : Env :=
  { baseEnv with
    testMode := false,
    structuredCall := specStructuredCall ticketsJson,
    loadsTickets := fun r =>
      if r = ticketsJson then .ok [sampleTicket1, sampleTicket2]
      else .error (.jsonDecodeError "Expecting value") }

/-- C2 (code evaluated at the failing input). Against the source
`OpenAIService` the yes branch of a confirmation with a live pending record
raises `AttributeError` at the structured-conversion call — the method is
absent — which the handler converts to an ephemeral error: zero
`create_issue` calls are made and no ticket is ever created, against the
claim's one-call-per-extracted-ticket. The record is still cleared, the no
branch still cancels with zero writes, and an immediately repeated yes
reports nothing pending. -/
theorem confirmation_yes_cannot_create_tickets :
    (handle_create_tickets_confirmation baseEnv "U1" true 0 pendingState).eff.createCalls
        = 0 ∧
    (handle_create_tickets_confirmation baseEnv "U1" true 0 pendingState).response
      = ephemeralResp
          "❌ Error creating tickets: OpenAIService object has no attribute _call_openai_structured_async" ∧
    (handle_create_tickets_confirmation baseEnv "U1" true 0
        pendingState).state.pendings "U1" = none ∧
    "_call_openai_structured_async" ∉ openAIServiceMethods ∧
    (handle_create_tickets_confirmation baseEnv "U1" false 0 pendingState).eff.createCalls
        = 0 ∧
    (handle_create_tickets_confirmation baseEnv "U1" false 0 pendingState).response
      = ephemeralResp cancelText ∧
    (handle_create_tickets_confirmation baseEnv "U1" false 0
        pendingState).state.pendings "U1" = none ∧
    (handle_create_tickets_confirmation baseEnv "U1" true 0
        (handle_create_tickets_confirmation baseEnv "U1" true 0 pendingState).state).response
      = ephemeralResp noPendingText := by
  decide

/-- C5 (counterexample). With test mode off, a live pending record and the
structured conversion spec-modelled to return tickets, the write path is
reached, `create_issue` raises the safety `ValueError` on the first ticket —
and the confirmation handler's catch-all converts it into a user-visible
ephemeral error message instead of letting it propagate: the run returns
normally with exactly one attempted create call and zero GraphQL
requests. -/
theorem safety_gate_error_is_caught_counterexample :
    (handle_create_tickets_confirmation specEnvOff "U1" true 0 pendingState).response
      = ephemeralResp ("❌ Error creating tickets: " ++ create_issue_safety_msg) ∧
    (handle_create_tickets_confirmation specEnvOff "U1" true 0
        pendingState).eff.createCalls = 1 ∧
    (handle_create_tickets_confirmation specEnvOff "U1" true 0
        pendingState).eff.requests = [] := by
  decide

/-- C5 (amended). The safety-gate exception raised by `create_issue` inside
a confirmed creation with test mode off is caught by the confirmation
handler's own catch-all and converted into the ephemeral error message
carrying the safety text; it never escapes the handler, the loop stops
after the first attempted call, and no network request is issued by the
gated call. -/
theorem safety_gate_error_caught_and_converted (env : Env) (u : UserId)
    (td : PendingTicket) (now : Nat) (s : BotState) (pc : PromptConfig)
    (resp : String) (t1 : TicketItem) (rest : List TicketItem)
    (hoff : env.testMode = false)
    (hpend : s.pendings u = some td)
    (hfresh : now - td.timestamp ≤ 600)
    (hpc : env.prompts "slack_bot_create_tickets_structured" = some pc)
    (hconv : env.structuredCall = specStructuredCall resp)
    (hload : env.loadsTickets resp = .ok (t1 :: rest)) :
    (handle_create_tickets_confirmation env u true now s).response
      = ephemeralResp ("❌ Error creating tickets: " ++ create_issue_safety_msg) ∧
    (handle_create_tickets_confirmation env u true now s).eff.createCalls = 1 ∧
    (handle_create_tickets_confirmation env u true now s).eff.requests = [] ∧
    (handle_create_tickets_confirmation env u true now s).state.pendings u = none := by
  have hexp : ¬ (now - td.timestamp > 60 * PENDING_TICKET_TIMEOUT_MINUTES) := by
    simp only [PENDING_TICKET_TIMEOUT_MINUTES]; omega
  simp only [handle_create_tickets_confirmation, _get_pending_tickets, hpend,
    if_neg hexp, Bool.not_true, Bool.false_eq_true, if_false, hpc, hconv,
    specStructuredCall, hload, hoff, create_tickets_loop, create_issue,
    Bool.not_false, if_true, _clear_pending_tickets, BotState.setPending]
  simp [PyErr.str]

/-- Witness for the amended C5 at the concrete fixtures. -/
theorem safety_gate_error_caught_witness :
    (handle_create_tickets_confirmation specEnvOff "U1" true 0 pendingState).response
      = ephemeralResp ("❌ Error creating tickets: " ++ create_issue_safety_msg) ∧
    (handle_create_tickets_confirmation specEnvOff "U1" true 0
        pendingState).eff.createCalls = 1 ∧
    (handle_create_tickets_confirmation specEnvOff "U1" true 0
        pendingState).eff.requests = [] ∧
    (handle_create_tickets_confirmation specEnvOff "U1" true 0
        pendingState).state.pendings "U1" = none :=
  safety_gate_error_caught_and_converted specEnvOff "U1" pendingU1 0 pendingState
    { system_prompt := "sys:" ++ "slack_bot_create_tickets_structured",
      user_prompt := "usr:" ++ "slack_bot_create_tickets_structured" }
    ticketsJson sampleTicket1 [sampleTicket2]
    rfl rfl (by decide) rfl rfl rfl

/-! ## C6 fixtures -/

/-- A live in-memory pending record whose request and analysis differ from
the button payload copy. -/
def memPending : PendingTicket :=
  { context := "stored context", original_request := "MEMORY REQUEST",
    analysis := "MEMORY ANALYSIS", timestamp := 0, user_id := "U1" }

/-- State holding only that record. -/
def memState : BotState := emptyBotState.setPending "U1" (some memPending)

/-- The compact copy carried in the yes button's value. -/
def payloadCopy : CompactPayload :=
  { user_id := "U1", original_request := "PAYLOAD REQUEST",
    analysis := "PAYLOAD ANALYSIS" }

set_option maxRecDepth 2000 in
/-- C6 (counterexample). A yes action whose button value carries a
non-empty payload copy runs the structured conversion on the payload's
request and analysis even though a non-expired in-memory record exists for
the user: the conversion arguments are the payload's, not the memory
record's. -/
theorem yes_action_prefers_payload_counterexample :
    (memState.pendings "U1").isSome = true ∧
    (handle_create_tickets_yes baseEnv (some payloadCopy) "U1" 0 memState).eff.convArgs
      = some ("PAYLOAD REQUEST", "PAYLOAD ANALYSIS") ∧
    (handle_create_tickets_yes baseEnv (some payloadCopy) "U1" 0 memState).eff.convArgs
      ≠ some ("MEMORY REQUEST", "MEMORY ANALYSIS") := by
  decide

/-- C6 (amended). On a yes action the in-memory pending record is
overwritten by the button-payload copy whenever that copy carries a
non-empty request and analysis, so the conversion always runs on the
payload copy in that case; the in-memory record is consulted only when the
button value is absent (or unusable), in which case a live record's request
and analysis feed the conversion. -/
theorem yes_action_rehydration_priority (env : Env) (vp : CompactPayload)
    (u : UserId) (now : Nat) (s : BotState) (pc : PromptConfig)
    (td : PendingTicket)
    (hpc : env.prompts "slack_bot_create_tickets_structured" = some pc) :
    (truthyS vp.analysis = true → truthyS vp.original_request = true →
      (handle_create_tickets_yes env (some vp) u now s).eff.convArgs
        = some (vp.original_request, pyTake vp.analysis 4000)) ∧
    (s.pendings u = some td → now - td.timestamp ≤ 600 →
      (handle_create_tickets_yes env none u now s).eff.convArgs
        = some (td.original_request, pyTake td.analysis 4000)) := by
  constructor
  · intro ha hr
    simp only [handle_create_tickets_yes, ha, hr, Bool.and_self, if_true,
      handle_create_tickets_confirmation, _get_pending_tickets,
      _clear_pending_tickets, BotState.setPending]
    simp only [if_pos rfl, Nat.sub_self, PENDING_TICKET_TIMEOUT_MINUTES]
    rw [if_neg (by omega)]
    simp only [Bool.not_true, Bool.false_eq_true, if_false, hpc]
    repeat' split
    all_goals rfl
  · intro hpend hfresh
    simp only [handle_create_tickets_yes, handle_create_tickets_confirmation,
      _get_pending_tickets, hpend, PENDING_TICKET_TIMEOUT_MINUTES]
    rw [if_neg (by omega)]
    simp only [Bool.not_true, Bool.false_eq_true, if_false, hpc]
    repeat' split
    all_goals rfl

/-- Witness for the amended C6 at the concrete fixtures, both arms. -/
theorem yes_action_rehydration_witness :
    (handle_create_tickets_yes baseEnv (some payloadCopy) "U1" 0 memState).eff.convArgs
      = some (payloadCopy.original_request, pyTake payloadCopy.analysis 4000) ∧
    (handle_create_tickets_yes baseEnv none "U1" 0 memState).eff.convArgs
      = some (memPending.original_request, pyTake memPending.analysis 4000) :=
  ⟨(yes_action_rehydration_priority baseEnv payloadCopy "U1" 0 memState
      { system_prompt := "sys:" ++ "slack_bot_create_tickets_structured",
        user_prompt := "usr:" ++ "slack_bot_create_tickets_structured" }
      memPending rfl).1 (by decide) (by decide),
   (yes_action_rehydration_priority baseEnv payloadCopy "U1" 0 memState
      { system_prompt := "sys:" ++ "slack_bot_create_tickets_structured",
        user_prompt := "usr:" ++ "slack_bot_create_tickets_structured" }
      memPending rfl).2 (by decide) (by omega)⟩

/-! ## C8 fixtures -/

/-- The /update invocation of the claim. -/
def updatePayload : CommandPayload :=
  { command := "/update", text := "Update ticket ABC-123 to in progress",
    user_id := "U1" }

/-- Base environment with test mode off. -/
def baseEnvOff : Env := { baseEnv with testMode := false }

/-- C8 (code evaluated at the failing input). `LinearService` has no
`update_issue` method and `OpenAIService` no structured async call; a
/update invocation therefore raises `AttributeError` at the analysis call —
with test mode off and on alike — which the handler converts to the
ephemeral error reply: no analysis is returned and no update is ever
performed, against both arms of the claim. -/
theorem update_command_cannot_analyze_or_update :
    "update_issue" ∉ linearServiceMethods ∧
    "_call_openai_structured_async" ∉ openAIServiceMethods ∧
    (handle_command baseEnvOff updatePayload 0 emptyBotState).response
      = ephemeralResp
          "❌ Error processing ticket update: OpenAIService object has no attribute _call_openai_structured_async" ∧
    (handle_command baseEnvOff updatePayload 0 emptyBotState).eff.updateCalls = [] ∧
    (handle_command baseEnv updatePayload 0 emptyBotState).response
      = ephemeralResp
          "❌ Error processing ticket update: OpenAIService object has no attribute _call_openai_structured_async" ∧
    (handle_command baseEnv updatePayload 0 emptyBotState).eff.updateCalls = [] := by
  decide

end AlphaMachine
